import Mathlib

/-
  Verification development for the Castello Reverb input-widget framework
  (src/ui/js/castello-rev-ui.js).  Numbers are modelled as exact rationals;
  JavaScript falsy-default idioms (`a || b`) and strict comparisons are
  modelled explicitly.  Each widget method is translated into a pure
  function on an explicit state, returning the list of dispatched events.
-/

namespace CastelloRev

/-- Models the JavaScript idiom `a || b` for an option slot holding either
`undefined` (unset) or a number: `undefined` and `0` are falsy and yield the
default `b`; any other number is returned unchanged. -/
def jsOr (a : Option ℚ) (b : ℚ) : ℚ :=
  match a with
  | none => b
  | some x => if x = 0 then b else x

/-- Models JavaScript truthiness of an optional numeric option slot:
`undefined` and `0` are falsy. -/
def jsTruthyNum (a : Option ℚ) : Bool :=
  match a with
  | none => false
  | some x => x != 0

/-! ## Widget lifecycle (class Widget) -/

/-- Per-instance lifecycle state: the `_instanceInitialized` flag together
with an observation counter for how many times `_instanceInit` has run. -/
structure WidgetInitState where
  initDone : Bool
  initCount : Nat
deriving DecidableEq, Repr

/-- A widget instance as constructed, before any `connectedCallback`. -/
def freshWidget : WidgetInitState := { initDone := false, initCount := 0 }

/-- Widget.connectedCallback: runs `_instanceInit` only when the
`_instanceInitialized` flag is not yet set, then sets the flag. -/
def Widget.connectedCallback (w : WidgetInitState) : WidgetInitState :=
  if w.initDone then w
  else { initDone := true, initCount := w.initCount + 1 }

/-- Iterates `connectedCallback` n times (detach/reattach cycles). -/
def Widget.connectN : Nat → WidgetInitState → WidgetInitState
  | 0, w => w
  | n + 1, w => Widget.connectN n (Widget.connectedCallback w)

/-! ## Widget registration (static get _unqualifiedNodeName / _staticInit) -/

/-- JavaScript exception raised by the widget framework. -/
inductive JsError where
  | typeError : String → JsError
deriving DecidableEq, Repr

/-- A Widget subclass, described by its class name and by whether it
overrides the static `_unqualifiedNodeName` getter (`none` = inherited
throwing getter from `Widget`). -/
structure WidgetSubclass where
  className : String
  unqualifiedNodeName : Option String
deriving DecidableEq, Repr

/-- Reading the static `_unqualifiedNodeName` getter: the base class getter
throws a TypeError; an overriding subclass returns its tag. -/
def Widget.getUnqualifiedNodeName (c : WidgetSubclass) : Except JsError String :=
  match c.unqualifiedNodeName with
  | some s => Except.ok s
  | none =>
      Except.error (JsError.typeError
        ("_unqualifiedNodeName not implemented for " ++ c.className))

/-- Widget._staticInit: registers the custom element under the name
`a-` ++ `_unqualifiedNodeName`, propagating the TypeError when the getter
throws. -/
def Widget.staticInit (c : WidgetSubclass) : Except JsError String :=
  match Widget.getUnqualifiedNodeName c with
  | Except.ok s => Except.ok ("a-" ++ s)
  | Except.error e => Except.error e

/-- The Knob subclass: overrides `_unqualifiedNodeName` with "knob". -/
def knobClass : WidgetSubclass :=
  { className := "Knob", unqualifiedNodeName := some "knob" }

/-- The ResizeHandle subclass: overrides `_unqualifiedNodeName` with
"resize-handle". -/
def resizeHandleClass : WidgetSubclass :=
  { className := "ResizeHandle", unqualifiedNodeName := some "resize-handle" }

/-! ## InputWidget value model -/

/-- InputWidget._setValue(value, runInternalCallback): returns the new
stored value, the list of `_onSetValue` hook invocations, and the list of
dispatched `input` events (each carrying the new value).  A write equal to
the stored value under `==` returns early: no hook, no event.  The hook is
skipped exactly when `runInternalCallback === false` (an absent argument is
`undefined`, which is `!== false`). -/
def InputWidget.setValue (stored v : ℚ) (runInternalCallback : Option Bool) :
    ℚ × List ℚ × List ℚ :=
  if stored = v then (stored, [], [])
  else (v, (if runInternalCallback = some false then [] else [v]), [v])

/-! ## RangeInputWidget -/

/-- Observable state of a range input widget right after `_instanceInit`:
the stored `_value` and the resolved `minValue` / `maxValue` options. -/
structure RangeWidgetState where
  value : ℚ
  minValue : ℚ
  maxValue : ℚ
deriving DecidableEq, Repr

/-- RangeInputWidget._instanceInit composed with InputWidget._instanceInit:
the stored value becomes 0, and the option slots are resolved with the
JavaScript default idiom `opt = opt || default` (defaults 0.0 and 1.0). -/
def RangeInputWidget.instanceInit (optMin optMax : Option ℚ) : RangeWidgetState :=
  { value := 0
    minValue := jsOr optMin 0
    maxValue := jsOr optMax 1 }

/-- RangeInputWidget._range(). -/
def RangeInputWidget.range (minValue maxValue : ℚ) : ℚ := maxValue - minValue

/-- RangeInputWidget._clamp(value) = Math.max(minValue, Math.min(maxValue, value)). -/
def RangeInputWidget.clamp (minValue maxValue v : ℚ) : ℚ :=
  max minValue (min maxValue v)

/-- RangeInputWidget._normalize(value). -/
def RangeInputWidget.normalize (minValue maxValue v : ℚ) : ℚ :=
  (v - minValue) / RangeInputWidget.range minValue maxValue

/-- RangeInputWidget._denormalize(value). -/
def RangeInputWidget.denormalize (minValue maxValue v : ℚ) : ℚ :=
  minValue + v * RangeInputWidget.range minValue maxValue

/-! ## Knob -/

/-- Ambient data a Knob reads during a gesture: the resolved range options
and the rendered size (this.clientWidth / this.clientHeight). -/
structure KnobEnv where
  minValue : ℚ
  maxValue : ℚ
  clientWidth : ℚ
  clientHeight : ℚ
deriving DecidableEq, Repr

/-- Mutable Knob fields touched by the gesture handlers: the stored
`_value` and the per-gesture `_startValue`, `_axis`, `_drag_d`. -/
structure KnobState where
  value : ℚ
  startValue : ℚ
  axis : ℚ
  drag_d : ℚ
deriving DecidableEq, Repr

/-- Knob._onControlEventStart: records the start value and resets the
axis-lock and drag-distance accumulators. -/
def Knob.onControlEventStart (s : KnobState) : KnobState :=
  { s with startValue := s.value, axis := 0, drag_d := 0 }

/-- Knob._onControlEventContinue: while `|_axis| < 3` the step only feeds
the axis accumulator with `|movementX| - |movementY|` and returns without a
value write; once locked, the raw movement along the locked axis
accumulates into `_drag_d` and `clamp(startValue + range * drag_d / size)`
is written through `_setValue` (which suppresses no-op writes).  Returns
the new state and the dispatched `input` events. -/
def Knob.onControlEventContinue (env : KnobEnv) (s : KnobState) (mx my : ℚ) :
    KnobState × List ℚ :=
  if |s.axis| < 3 then
    ({ s with axis := s.axis + (|mx| - |my|) }, [])
  else if s.axis > 0 then
    let d := s.drag_d + mx
    let dv := RangeInputWidget.range env.minValue env.maxValue * d / env.clientWidth
    let r := InputWidget.setValue s.value
      (RangeInputWidget.clamp env.minValue env.maxValue (s.startValue + dv)) none
    ({ s with drag_d := d, value := r.1 }, r.2.2)
  else
    let d := s.drag_d - my
    let dv := RangeInputWidget.range env.minValue env.maxValue * d / env.clientHeight
    let r := InputWidget.setValue s.value
      (RangeInputWidget.clamp env.minValue env.maxValue (s.startValue + dv)) none
    ({ s with drag_d := d, value := r.1 }, r.2.2)

/-- Knob._onControlEventEnd is inherited from the no-op default. -/
def Knob.onControlEventEnd (s : KnobState) : KnobState := s

/-- Folds a list of continue steps (movementX, movementY) through
Knob._onControlEventContinue, concatenating the dispatched events. -/
def Knob.gesture (env : KnobEnv) (s : KnobState) :
    List (ℚ × ℚ) → KnobState × List ℚ
  | [] => (s, [])
  | m :: rest =>
      let r := Knob.onControlEventContinue env s m.1 m.2
      let r2 := Knob.gesture env r.1 rest
      (r2.1, r.2 ++ r2.2)

/-- A complete gesture: start, the given continue steps, end. -/
def Knob.fullGesture (env : KnobEnv) (s : KnobState) (moves : List (ℚ × ℚ)) :
    KnobState × List ℚ :=
  let r := Knob.gesture env (Knob.onControlEventStart s) moves
  (Knob.onControlEventEnd r.1, r.2)

/-! ## ResizeHandle -/

/-- The ResizeHandle option bag as set before `_instanceInit` (each slot
`none` when unset), mirroring `this._opt.*`. -/
structure ResizeRawOpts where
  minWidth : Option ℚ
  minHeight : Option ℚ
  maxWidth : Option ℚ
  maxHeight : Option ℚ
  maxScale : Option ℚ
  keepAspectRatio : Option Bool
deriving DecidableEq, Repr

/-- The resolved ResizeHandle configuration after `_instanceInit`: bounds,
ratio-lock flag and the aspect ratio captured once as
`minWidth / minHeight`. -/
structure ResizeConfig where
  minWidth : ℚ
  minHeight : ℚ
  maxWidth : ℚ
  maxHeight : ℚ
  keepAspectRatio : Bool
  aspectRatio : ℚ
deriving DecidableEq, Repr

/-- The mutable `_width` / `_height` pair of a ResizeHandle. -/
structure ResizeState where
  width : ℚ
  height : ℚ
deriving DecidableEq, Repr

/-- ResizeHandle._instanceInit: resolves minimum bounds with the
`opt || documentBodySize` idiom; when `maxScale` is truthy the maximum
bounds are `maxScale` times the minimums, otherwise
`opt || screenSize`; `keepAspectRatio` is true unless strictly equal to
`false`; the aspect ratio is captured as `minWidth / minHeight`; the
`_width`/`_height` state starts at 0 (and `_value` starts at 0 via
InputWidget._instanceInit). -/
def ResizeHandle.instanceInit (raw : ResizeRawOpts)
    (bodyClientWidth bodyClientHeight screenWidth screenHeight : ℚ) :
    ResizeConfig × ResizeState :=
  let minW := jsOr raw.minWidth bodyClientWidth
  let minH := jsOr raw.minHeight bodyClientHeight
  let maxWH : ℚ × ℚ :=
    if jsTruthyNum raw.maxScale then
      (raw.maxScale.getD 0 * minW, raw.maxScale.getD 0 * minH)
    else
      (jsOr raw.maxWidth screenWidth, jsOr raw.maxHeight screenHeight)
  let keep : Bool :=
    match raw.keepAspectRatio with
    | some false => false
    | _ => true
  ({ minWidth := minW
     minHeight := minH
     maxWidth := maxWH.1
     maxHeight := maxWH.2
     keepAspectRatio := keep
     aspectRatio := minW / minH },
   { width := 0, height := 0 })

/-- ResizeHandle._onControlEventStart: captures the live rendered size as
the gesture baseline. -/
def ResizeHandle.onControlEventStart (bodyClientWidth bodyClientHeight : ℚ) :
    ResizeState :=
  { width := bodyClientWidth, height := bodyClientHeight }

/-- ResizeHandle._onControlEventContinue: clamps `width + movementX` and
`height + movementY` into their bounds; when ratio-locked, the dominant
axis of this step (movementX > movementY) keeps its clamped value and the
other dimension is derived from the aspect ratio without re-clamping; the
pair is stored and emitted (scaled by the devicePixelRatio `k`) only when
it differs from the stored pair.  Returns the new state and the list of
emitted `{width, height}` pairs. -/
def ResizeHandle.onControlEventContinue (cfg : ResizeConfig) (k : ℚ)
    (s : ResizeState) (mx my : ℚ) : ResizeState × List (ℚ × ℚ) :=
  let newWidth0 := max cfg.minWidth (min cfg.maxWidth (s.width + mx))
  let newHeight0 := max cfg.minHeight (min cfg.maxHeight (s.height + my))
  let wh : ℚ × ℚ :=
    if cfg.keepAspectRatio then
      if mx > my then (newWidth0, newWidth0 / cfg.aspectRatio)
      else (newHeight0 * cfg.aspectRatio, newHeight0)
    else (newWidth0, newHeight0)
  if s.width = wh.1 ∧ s.height = wh.2 then (s, [])
  else ({ width := wh.1, height := wh.2 }, [(k * wh.1, k * wh.2)])

/-- Folds a list of continue steps (movementX, movementY) through
ResizeHandle._onControlEventContinue, concatenating the emitted pairs. -/
def ResizeHandle.gesture (cfg : ResizeConfig) (k : ℚ) (s : ResizeState) :
    List (ℚ × ℚ) → ResizeState × List (ℚ × ℚ)
  | [] => (s, [])
  | m :: rest =>
      let r := ResizeHandle.onControlEventContinue cfg k s m.1 m.2
      let r2 := ResizeHandle.gesture cfg k r.1 rest
      (r2.1, r.2 ++ r2.2)

/-! ## Concrete test fixtures -/

/-- Knob configuration of the two-step horizontal gesture scenario:
minValue 0, maxValue 100, clientWidth 200 (clientHeight 200, unused). -/
def knobEnvA : KnobEnv :=
  { minValue := 0, maxValue := 100, clientWidth := 200, clientHeight := 200 }

/-- Knob state holding value 50 (per-gesture fields irrelevant: the start
phase resets them). -/
def knobStateA : KnobState :=
  { value := 50, startValue := 0, axis := 0, drag_d := 0 }

/-- ResizeHandle option bag with explicit non-proportional bounds:
min 100×100, max 1000×200, no maxScale, keepAspectRatio unset (→ true). -/
def resizeRawA : ResizeRawOpts :=
  { minWidth := some 100, minHeight := some 100, maxWidth := some 1000,
    maxHeight := some 200, maxScale := none, keepAspectRatio := none }

/-- The configuration `resizeRawA` resolves to at init with a 100×100
document body and a 1920×1080 screen. -/
def resizeCfgA : ResizeConfig :=
  (ResizeHandle.instanceInit resizeRawA 100 100 1920 1080).1

/-- A resolved ResizeHandle configuration with ratio lock disabled,
bounds 100..200 on both axes. -/
def resizeCfgB : ResizeConfig :=
  { minWidth := 100, minHeight := 100, maxWidth := 200, maxHeight := 200,
    keepAspectRatio := false, aspectRatio := 1 }

/-! ## Theorems -/

/-- Claim C4: writing a value equal to the stored one through
InputWidget._setValue dispatches zero `input` events and leaves the stored
value unchanged; writing a different value stores it and dispatches exactly
one `input` event carrying the new value (whatever the internal-callback
flag is). -/
theorem setValue_noop_suppression (stored v : ℚ) (cb : Option Bool) :
    (stored = v →
      InputWidget.setValue stored v cb = (stored, [], [])) ∧
    (stored ≠ v →
      (InputWidget.setValue stored v cb).1 = v ∧
      (InputWidget.setValue stored v cb).2.2 = [v]) := by
  constructor
  · intro h
    simp [InputWidget.setValue, h]
  · intro h
    simp [InputWidget.setValue, h]

/-- Witness for C4 at stored = 5, v = 5 (no event) and stored = 3, v = 7
(exactly one event carrying 7). -/
theorem setValue_noop_suppression_witness :
    InputWidget.setValue 5 5 none = (5, [], []) ∧
    (InputWidget.setValue 3 7 none).1 = 7 ∧
    (InputWidget.setValue 3 7 none).2.2 = [7] :=
  ⟨(setValue_noop_suppression 5 5 none).1 rfl,
   (setValue_noop_suppression 3 7 none).2 (by norm_num)⟩

/-- Claim C5: for maxValue > minValue, denormalize inverts normalize
exactly over the rationals on all of `[minValue, maxValue]`. -/
theorem denormalize_normalize_id (minValue maxValue v : ℚ)
    (h : minValue < maxValue) (h1 : minValue ≤ v) (h2 : v ≤ maxValue) :
    RangeInputWidget.denormalize minValue maxValue
      (RangeInputWidget.normalize minValue maxValue v) = v := by
  have hr : maxValue - minValue ≠ 0 := sub_ne_zero.mpr (ne_of_gt h)
  unfold RangeInputWidget.denormalize RangeInputWidget.normalize
    RangeInputWidget.range
  field_simp

/-- Witness for C5 at minValue = 0, maxValue = 1, v = 1/2. -/
theorem denormalize_normalize_id_witness :
    RangeInputWidget.denormalize 0 1 (RangeInputWidget.normalize 0 1 (1/2))
      = 1/2 :=
  denormalize_normalize_id 0 1 (1/2) (by norm_num) (by norm_num) (by norm_num)

/-- Claim C6: for minValue ≤ maxValue, clamp lands in
`[minValue, maxValue]` and is idempotent. -/
theorem clamp_mem_Icc_and_idempotent (minValue maxValue v : ℚ)
    (h : minValue ≤ maxValue) :
    minValue ≤ RangeInputWidget.clamp minValue maxValue v ∧
    RangeInputWidget.clamp minValue maxValue v ≤ maxValue ∧
    RangeInputWidget.clamp minValue maxValue
        (RangeInputWidget.clamp minValue maxValue v) =
      RangeInputWidget.clamp minValue maxValue v := by
  unfold RangeInputWidget.clamp
  refine ⟨le_max_left _ _, max_le h (min_le_left _ _), ?_⟩
  have hub : max minValue (min maxValue v) ≤ maxValue :=
    max_le h (min_le_left _ _)
  rw [min_eq_right hub, max_eq_right (le_max_left _ _)]

/-- Witness for C6 at minValue = 0, maxValue = 10, v = 42. -/
theorem clamp_mem_Icc_and_idempotent_witness :
    (0:ℚ) ≤ RangeInputWidget.clamp 0 10 42 ∧
    RangeInputWidget.clamp 0 10 42 ≤ 10 ∧
    RangeInputWidget.clamp 0 10 (RangeInputWidget.clamp 0 10 42) =
      RangeInputWidget.clamp 0 10 42 :=
  clamp_mem_Icc_and_idempotent 0 10 42 (by norm_num)

/-- Claim C10: after instance initialization and before any write, the
stored value is 0 for every configuration of the range options; in
particular with minValue = 100, maxValue = 10000 the initial value lies
strictly below minValue — initialization does not clamp it into range. -/
theorem initial_value_zero_unclamped :
    (∀ optMin optMax : Option ℚ,
      (RangeInputWidget.instanceInit optMin optMax).value = 0) ∧
    (RangeInputWidget.instanceInit (some 100) (some 10000)).value <
      (RangeInputWidget.instanceInit (some 100) (some 10000)).minValue := by
  constructor
  · intro optMin optMax
    rfl
  · decide

/-- Claim C3 (code evaluated at the failing input): an explicitly set
`maxValue = 0` is replaced by the default 1.0 at init, because the source
resolves it with the JavaScript idiom `opt.maxValue || 1.0` and `0` is
falsy — the explicit zero override is NOT kept, contradicting the claim. -/
theorem range_init_overwrites_explicit_zero_max :
    (RangeInputWidget.instanceInit none (some 0)).maxValue = 1 ∧
    (1 : ℚ) ≠ 0 := by
  decide

/-- Helper: once the initialization flag is set, any further
connectedCallback is the identity. -/
theorem connectN_initDone (n : Nat) (c : Nat) :
    Widget.connectN n { initDone := true, initCount := c } =
      { initDone := true, initCount := c } := by
  induction n with
  | zero => rfl
  | succ m ih =>
      show Widget.connectN m
        (Widget.connectedCallback { initDone := true, initCount := c }) = _
      rw [show Widget.connectedCallback { initDone := true, initCount := c } =
        { initDone := true, initCount := c } from rfl, ih]

/-- Claim C8: starting from a freshly constructed widget, any positive
number of connectedCallback invocations (first connection plus any
detach/reattach cycles) runs the one-time init hook exactly once and
leaves the flag set. -/
theorem init_hook_runs_exactly_once (n : Nat) (h : 1 ≤ n) :
    (Widget.connectN n freshWidget).initCount = 1 ∧
    (Widget.connectN n freshWidget).initDone = true := by
  obtain ⟨m, rfl⟩ : ∃ m, n = m + 1 :=
    ⟨n - 1, (Nat.succ_pred_eq_of_pos h).symm⟩
  have step : Widget.connectN (m + 1) freshWidget =
      Widget.connectN m { initDone := true, initCount := 1 } := rfl
  rw [step, connectN_initDone]
  exact ⟨rfl, rfl⟩

/-- Witness for C8 at n = 3 connections. -/
theorem init_hook_runs_exactly_once_witness :
    (Widget.connectN 3 freshWidget).initCount = 1 ∧
    (Widget.connectN 3 freshWidget).initDone = true :=
  init_hook_runs_exactly_once 3 (by norm_num)

/-- Claim C9: registering a Widget subclass that does not override
`_unqualifiedNodeName` raises a TypeError at registration time, while the
two concrete subclasses (Knob, ResizeHandle), which do override it,
register without error. -/
theorem registration_requires_node_name :
    (∀ c : WidgetSubclass, c.unqualifiedNodeName = none →
      Widget.staticInit c = Except.error (JsError.typeError
        ("_unqualifiedNodeName not implemented for " ++ c.className))) ∧
    Widget.staticInit knobClass = Except.ok "a-knob" ∧
    Widget.staticInit resizeHandleClass = Except.ok "a-resize-handle" := by
  refine ⟨?_, rfl, rfl⟩
  intro c hc
  simp [Widget.staticInit, Widget.getUnqualifiedNodeName, hc]

/-- Witness for C9 at a concrete subclass "MyWidget" with no tag. -/
theorem registration_requires_node_name_witness :
    Widget.staticInit { className := "MyWidget", unqualifiedNodeName := none } =
      Except.error (JsError.typeError
        ("_unqualifiedNodeName not implemented for " ++ "MyWidget")) :=
  registration_requires_node_name.1
    { className := "MyWidget", unqualifiedNodeName := none } rfl

/-- Claim C1 as stated is false: with minValue = 0, maxValue = 100,
clientWidth = 200 and current value 50, the gesture start + (+5,0) + (+5,0)
+ end does NOT leave the value at 55 — the code yields 52.5. -/
theorem knob_two_step_gesture_not_55 :
    (Knob.fullGesture knobEnvA knobStateA [(5, 0), (5, 0)]).1.value ≠ 55 := by
  norm_num [Knob.fullGesture, Knob.gesture, Knob.onControlEventStart,
    Knob.onControlEventEnd, Knob.onControlEventContinue, knobEnvA, knobStateA,
    InputWidget.setValue, RangeInputWidget.clamp, RangeInputWidget.range]

/-- Claim C1 (amended): the same gesture leaves the value at
52.5 = 50 + 100×5/200 and dispatches exactly one `input` event carrying
52.5: the first continue step is consumed resolving the axis
(the accumulator gets |5|−|0| = 5 ≥ 3) and contributes no drag distance,
so only the second step's movementX = 5 moves the value. -/
theorem knob_two_step_gesture_final_value :
    (Knob.fullGesture knobEnvA knobStateA [(5, 0), (5, 0)]).1.value = 105 / 2 ∧
    (Knob.fullGesture knobEnvA knobStateA [(5, 0), (5, 0)]).2 = [105 / 2] := by
  norm_num [Knob.fullGesture, Knob.gesture, Knob.onControlEventStart,
    Knob.onControlEventEnd, Knob.onControlEventContinue, knobEnvA, knobStateA,
    InputWidget.setValue, RangeInputWidget.clamp, RangeInputWidget.range]

/-- Claim C7: from any knob configuration and any starting state, a
gesture of five (+1,+1) continue steps leaves the value unchanged and
dispatches no `input` event: each step adds |1|−|1| = 0 to the axis
accumulator, which stays at 0 < 3, so the axis never locks and no value
write is attempted. -/
theorem knob_diagonal_gesture_no_change (env : KnobEnv) (s : KnobState) :
    (Knob.fullGesture env s [(1, 1), (1, 1), (1, 1), (1, 1), (1, 1)]).1.value
        = s.value ∧
    (Knob.fullGesture env s [(1, 1), (1, 1), (1, 1), (1, 1), (1, 1)]).2
        = [] := by
  norm_num [Knob.fullGesture, Knob.gesture, Knob.onControlEventStart,
    Knob.onControlEventEnd, Knob.onControlEventContinue]

/-- Claim C2 as stated is false: with the ratio lock enabled and
non-proportional bounds (min 100×100, max 1000×200, aspectRatio = 1,
reachable from `_instanceInit` with explicit options), the single continue
step movementX = 10000, movementY = 0 from base 100×100 emits the pair
(1000, 1000) at devicePixelRatio 1: the ratio-derived height 1000 exceeds
maxHeight = 200, because the derived dimension is never re-clamped. -/
theorem resize_ratio_lock_exceeds_bounds :
    resizeCfgA.keepAspectRatio = true ∧
    resizeCfgA.minHeight = 100 ∧
    resizeCfgA.maxHeight = 200 ∧
    (ResizeHandle.onControlEventContinue resizeCfgA 1
        (ResizeHandle.onControlEventStart 100 100) 10000 0).2
      = [(1000, 1000)] ∧
    ¬ ((1000 : ℚ) ≤ resizeCfgA.maxHeight) := by
  norm_num [resizeCfgA, resizeRawA, ResizeHandle.instanceInit, jsOr,
    jsTruthyNum, ResizeHandle.onControlEventStart,
    ResizeHandle.onControlEventContinue]

/-- Helper for C2: with the ratio lock disabled and coherent bounds, any
pair emitted by a single continue step lies within the bounds, whatever
the current state and movement are. -/
theorem resize_step_bounds (cfg : ResizeConfig)
    (hk : cfg.keepAspectRatio = false)
    (hw : cfg.minWidth ≤ cfg.maxWidth) (hh : cfg.minHeight ≤ cfg.maxHeight)
    (s : ResizeState) (mx my : ℚ) (p : ℚ × ℚ)
    (hp : p ∈ (ResizeHandle.onControlEventContinue cfg 1 s mx my).2) :
    cfg.minWidth ≤ p.1 ∧ p.1 ≤ cfg.maxWidth ∧
    cfg.minHeight ≤ p.2 ∧ p.2 ≤ cfg.maxHeight := by
  simp only [ResizeHandle.onControlEventContinue, hk, Bool.false_eq_true,
    if_false] at hp
  split at hp
  · simp at hp
  · simp only [List.mem_singleton] at hp
    subst hp
    simp only [one_mul]
    exact ⟨le_max_left _ _, max_le hw (min_le_left _ _),
      le_max_left _ _, max_le hh (min_le_left _ _)⟩

/-- Claim C2 (amended): with the ratio lock disabled and coherent bounds,
every `{width, height}` pair emitted over an arbitrary sequence of
continue steps with arbitrary movement magnitudes (in logical pixels,
devicePixelRatio k = 1) satisfies minWidth ≤ width ≤ maxWidth and
minHeight ≤ height ≤ maxHeight.  With the ratio lock enabled this fails:
the ratio-derived dimension is not re-clamped (see the C2
counterexample). -/
theorem resize_gesture_bounds (cfg : ResizeConfig)
    (hk : cfg.keepAspectRatio = false)
    (hw : cfg.minWidth ≤ cfg.maxWidth) (hh : cfg.minHeight ≤ cfg.maxHeight)
    (s : ResizeState) (moves : List (ℚ × ℚ)) :
    ∀ p ∈ (ResizeHandle.gesture cfg 1 s moves).2,
      cfg.minWidth ≤ p.1 ∧ p.1 ≤ cfg.maxWidth ∧
      cfg.minHeight ≤ p.2 ∧ p.2 ≤ cfg.maxHeight := by
  induction moves generalizing s with
  | nil =>
      intro p hp
      simp [ResizeHandle.gesture] at hp
  | cons m rest ih =>
      intro p hp
      simp only [ResizeHandle.gesture, List.mem_append] at hp
      rcases hp with h | h
      · exact resize_step_bounds cfg hk hw hh s m.1 m.2 p h
      · exact ih _ p h

/-- Witness for C2 (amended) on the configuration with bounds 100..200 on
both axes, ratio lock off, a single huge step (+1000, −1000) from base
100×100: the theorem applied to the emitted pair (200, 100). -/
theorem resize_gesture_bounds_witness :
    resizeCfgB.minWidth ≤ (200 : ℚ) ∧ (200 : ℚ) ≤ resizeCfgB.maxWidth ∧
    resizeCfgB.minHeight ≤ (100 : ℚ) ∧ (100 : ℚ) ≤ resizeCfgB.maxHeight :=
  resize_gesture_bounds resizeCfgB rfl (by norm_num [resizeCfgB])
    (by norm_num [resizeCfgB]) { width := 100, height := 100 }
    [(1000, -1000)] (200, 100)
    (by norm_num [ResizeHandle.gesture, ResizeHandle.onControlEventContinue,
      resizeCfgB])

end CastelloRev
